import Mathlib

/-!
Shallow embedding of `src/compress.py` (recursive image compressor).

The program has two functions:
* `compress_and_resize_image(image_path, max_size, quality)` — decides whether
  a single image needs resizing, resizes it keeping the aspect ratio so the
  longest side equals `max_size`, re-encodes it, and returns one of the three
  tags `'compressed'`, `'skipped'`, `'error'`.
* `process_directory_recursive(directory_path, max_size, quality)` — walks a
  directory tree, filters files by extension, calls the transformer on each
  candidate and accumulates four counters.

The embedding represents an image file by the observations the Python code
makes of it (path string, decoded pixel dimensions, the format string PIL
reports) together with booleans saying whether each fallible library call
(readability check, decode, resample, encode) succeeds.  File-system writes
are recorded as explicit events; Python `int(a * b / c)` on pixel counts is
modelled as truncating natural division `a * b / c`.
-/

/-- Outcome tag of the single-image transformer: the Python function returns
one of the strings `'compressed'`, `'skipped'`, `'error'`. -/
inductive Outcome where
  | compressed
  | skipped
  | error
deriving DecidableEq, Repr

/-- A completed save to disk, as performed by `img.save(...)` in the source:
the destination path, the encoder chosen (`'JPEG'` or `'PNG'`), the pixel size
of the image being written, the JPEG quality when one is passed, and whether
the pixels were first converted to RGB. -/
structure SaveEvent where
  path : String
  encoder : String
  width : Nat
  height : Nat
  quality : Option Nat
  rgbConverted : Bool
deriving DecidableEq, Repr

/-- One image file as the Python transformer observes it.  `readable` is the
result of `os.access(path, os.R_OK)`; `decodeOk`, `resizeOk`, `saveOk` say
whether `Image.open`, `img.resize`, `img.save` complete without raising (a
raised exception lands in the `except` clause).  `format`, `width`, `height`
are what a successful decode reports. -/
structure ImageInput where
  path : String
  readable : Bool
  decodeOk : Bool
  format : String
  width : Nat
  height : Nat
  resizeOk : Bool
  saveOk : Bool
deriving DecidableEq, Repr

/-- What one call of the transformer did: the returned tag, the size passed to
`img.resize` when that line was reached, and the completed writes to disk. -/
structure TransformResult where
  outcome : Outcome
  resizedTo : Option (Nat × Nat)
  writes : List SaveEvent
deriving DecidableEq, Repr

/-- Index of the last occurrence of `c` in `l`, scanning with an accumulator
(`i` is the index of the head of `l`, `best` the best index found so far). -/
def lastIndexOfFrom (l : List Char) (c : Char) (i : Nat) (best : Option Nat) :
    Option Nat :=
  match l with
  | [] => best
  | x :: xs => lastIndexOfFrom xs c (i + 1) (if x = c then some i else best)

/-- Index of the last occurrence of `c` in `l`, or `none`. -/
def lastIndexOf (l : List Char) (c : Char) : Option Nat :=
  lastIndexOfFrom l c 0 none

/-- `os.path.splitext` (POSIX): split `p` into `(root, ext)`.  The extension
starts at the last `'.'` that lies after the last `'/'`, provided at least one
character between the `'/'` and that dot is not itself a dot (so leading dots
of the basename, as in `.bashrc`, never start an extension). -/
def splitext (p : String) : String × String :=
  let l := p.data
  let sepIndex : Int := match lastIndexOf l '/' with
    | some i => (i : Int)
    | none => -1
  let dotIndex : Int := match lastIndexOf l '.' with
    | some i => (i : Int)
    | none => -1
  if sepIndex < dotIndex then
    let start := (sepIndex + 1).toNat
    let dn := dotIndex.toNat
    if ((l.drop start).take (dn - start)).all (fun ch => ch = '.') then (p, "")
    else (String.mk (l.take dn), String.mk (l.drop dn))
  else (p, "")

/-- The new `(new_width, new_height)` computed at lines 41–46 of the source:
`if width > height` then `(max_size, int(height * max_size / width))`, else
`(int(width * max_size / height), max_size)`. -/
def newDims (width height max_size : Nat) : Nat × Nat :=
  if width > height then (max_size, height * max_size / width)
  else (width * max_size / height, max_size)

/-- `compress_and_resize_image` of `src/compress.py` as a pure function on the
observations.  Mirrors the source line by line: readability check, decode,
the `width <= max_size and height <= max_size` skip test, the aspect-ratio
dimensions, the resample, and the three-way save dispatch on the decoded
format (`'JPEG'`/`'JPG'` in place, `'PNG'` in place, anything else converted
to RGB and written as JPEG to the path with its extension replaced by
`.jpg`).  Any raising library call is caught by the `except` clause and turned
into the tag `error`. -/
def compress_and_resize_image (img : ImageInput) (max_size quality : Nat) :
    TransformResult :=
  if img.readable = false then ⟨.error, none, []⟩
  else if img.decodeOk = false then ⟨.error, none, []⟩
  else if img.width ≤ max_size ∧ img.height ≤ max_size then ⟨.skipped, none, []⟩
  else
    let nd := newDims img.width img.height max_size
    if img.resizeOk = false then ⟨.error, some nd, []⟩
    else if img.format = "JPEG" ∨ img.format = "JPG" then
      if img.saveOk then
        ⟨.compressed, some nd, [⟨img.path, "JPEG", nd.1, nd.2, some quality, false⟩]⟩
      else ⟨.error, some nd, []⟩
    else if img.format = "PNG" then
      if img.saveOk then
        ⟨.compressed, some nd, [⟨img.path, "PNG", nd.1, nd.2, none, false⟩]⟩
      else ⟨.error, some nd, []⟩
    else
      if img.saveOk then
        ⟨.compressed, some nd,
          [⟨(splitext img.path).1 ++ ".jpg", "JPEG", nd.1, nd.2, some quality, true⟩]⟩
      else ⟨.error, some nd, []⟩

/-- The image file sitting at the ORIGINAL path after one transformer run:
when the run completed a save whose destination is that very path, the file
now holds the written pixels (new dimensions, the encoder's format); when the
save went elsewhere, or no save happened, the original bytes are untouched.
This is the plain overwrite semantics of `img.save(path)`. -/
def afterTransform (img : ImageInput) (max_size quality : Nat) : ImageInput :=
  let r := compress_and_resize_image img max_size quality
  match r.writes.find? (fun e => e.path = img.path) with
  | some e => { img with width := e.width, height := e.height, format := e.encoder }
  | none => img

/-- The four counters of `process_directory_recursive`: `total_images`,
`processed_images`, `skipped_images`, `failed_images`. -/
structure RunSummary where
  total : Nat
  compressed : Nat
  skipped : Nat
  failed : Nat
deriving DecidableEq, Repr

/-- The extension list of line 85 of the source. -/
def image_extensions : List String :=
  [".jpg", ".jpeg", ".png", ".gif", ".bmp", ".tiff", ".webp", ".avif", ".heic"]

/-- One entry produced by the `os.walk` enumeration: the file name (used for
the extension test), the `os.path.isfile` answer for its joined path, the
image the transformer would observe at that path, and whether the walker's own
per-file `try` block raises outside the transformer (caught at lines
120–122 and counted as failed). -/
structure FileEntry where
  name : String
  isFile : Bool
  img : ImageInput
  raisesOutside : Bool
deriving DecidableEq, Repr

/-- Walker state: the counters plus the writes done to disk so far. -/
structure WalkState where
  summary : RunSummary
  writes : List SaveEvent
deriving DecidableEq, Repr

/-- Python's `str.lower()` restricted to the ASCII range, applied character
by character (extensions are ASCII). -/
def lowerString (s : String) : String :=
  String.mk (s.data.map Char.toLower)

/-- The body of the walker's inner loop for one enumerated file (lines
103–122): extension test on the lowercased name, `total_images += 1`, the
transformer call, and the mapping of its tag onto the matching counter
(anything other than `'compressed'`/`'skipped'` — and any exception escaping
into the per-file handler — increments `failed_images`). -/
def processFile (st : WalkState) (f : FileEntry) (max_size quality : Nat) :
    WalkState :=
  if f.isFile ∧ (splitext (lowerString f.name)).2 ∈ image_extensions then
    if f.raisesOutside then
      ⟨⟨st.summary.total + 1, st.summary.compressed, st.summary.skipped,
        st.summary.failed + 1⟩, st.writes⟩
    else
      match compress_and_resize_image f.img max_size quality with
      | ⟨.compressed, _, ws⟩ =>
          ⟨⟨st.summary.total + 1, st.summary.compressed + 1, st.summary.skipped,
            st.summary.failed⟩, st.writes ++ ws⟩
      | ⟨.skipped, _, ws⟩ =>
          ⟨⟨st.summary.total + 1, st.summary.compressed, st.summary.skipped + 1,
            st.summary.failed⟩, st.writes ++ ws⟩
      | ⟨.error, _, ws⟩ =>
          ⟨⟨st.summary.total + 1, st.summary.compressed, st.summary.skipped,
            st.summary.failed + 1⟩, st.writes ++ ws⟩
  else st

/-- `process_directory_recursive` of `src/compress.py`: when
`os.path.isdir(directory_path)` fails it prints an error and returns at once
(`none`: no traversal, no summary, no file touched); otherwise it starts from
zeroed counters and folds the per-file step over the enumerated files. -/
def process_directory_recursive (isdir : Bool) (files : List FileEntry)
    (max_size quality : Nat) : Option WalkState :=
  if isdir then
    some (files.foldl (fun st f => processFile st f max_size quality) ⟨⟨0, 0, 0, 0⟩, []⟩)
  else none

/-! ### Helper lemmas -/

/-- An unreadable file makes the transformer return `error` before touching
anything. -/
lemma transform_unreadable (img : ImageInput) (m q : Nat)
    (h : img.readable = false) :
    compress_and_resize_image img m q = ⟨.error, none, []⟩ := by
  unfold compress_and_resize_image
  rw [h]
  simp

/-- A failing decode makes the transformer return `error` before touching
anything. -/
lemma transform_undecodable (img : ImageInput) (m q : Nat)
    (hr : img.readable = true) (h : img.decodeOk = false) :
    compress_and_resize_image img m q = ⟨.error, none, []⟩ := by
  unfold compress_and_resize_image
  rw [hr, h]
  simp

/-- A readable, decodable image within the bound is skipped without any
resize or write. -/
lemma transform_small (img : ImageInput) (m q : Nat)
    (hr : img.readable = true) (hd : img.decodeOk = true)
    (hw : img.width ≤ m) (hh : img.height ≤ m) :
    compress_and_resize_image img m q = ⟨.skipped, none, []⟩ := by
  unfold compress_and_resize_image
  rw [hr, hd]
  simp [hw, hh]

/-- The run of the transformer on an oversized JPEG/JPG when every library
call succeeds: in-place JPEG save at the requested quality. -/
lemma transform_jpeg (img : ImageInput) (m q : Nat)
    (hr : img.readable = true) (hd : img.decodeOk = true)
    (hbig : ¬ (img.width ≤ m ∧ img.height ≤ m))
    (hrz : img.resizeOk = true) (hsv : img.saveOk = true)
    (hfmt : img.format = "JPEG" ∨ img.format = "JPG") :
    compress_and_resize_image img m q =
      ⟨.compressed, some (newDims img.width img.height m),
        [⟨img.path, "JPEG", (newDims img.width img.height m).1,
          (newDims img.width img.height m).2, some q, false⟩]⟩ := by
  unfold compress_and_resize_image
  rw [hr, hd, hrz, hsv]
  simp [hbig, hfmt]

/-- The run of the transformer on an oversized PNG when every library call
succeeds: in-place PNG save. -/
lemma transform_png (img : ImageInput) (m q : Nat)
    (hr : img.readable = true) (hd : img.decodeOk = true)
    (hbig : ¬ (img.width ≤ m ∧ img.height ≤ m))
    (hrz : img.resizeOk = true) (hsv : img.saveOk = true)
    (hfmt : img.format = "PNG") :
    compress_and_resize_image img m q =
      ⟨.compressed, some (newDims img.width img.height m),
        [⟨img.path, "PNG", (newDims img.width img.height m).1,
          (newDims img.width img.height m).2, none, false⟩]⟩ := by
  unfold compress_and_resize_image
  rw [hr, hd, hrz, hsv]
  have hnJ : ¬ (img.format = "JPEG" ∨ img.format = "JPG") := by
    rw [hfmt]; simp
  simp [hbig, hnJ, hfmt]

/-- The run of the transformer on an oversized image of any other native
format when every library call succeeds: JPEG save to the path with its
extension replaced by `.jpg`, after an RGB conversion. -/
lemma transform_other (img : ImageInput) (m q : Nat)
    (hr : img.readable = true) (hd : img.decodeOk = true)
    (hbig : ¬ (img.width ≤ m ∧ img.height ≤ m))
    (hrz : img.resizeOk = true) (hsv : img.saveOk = true)
    (hnJ : ¬ (img.format = "JPEG" ∨ img.format = "JPG"))
    (hnP : img.format ≠ "PNG") :
    compress_and_resize_image img m q =
      ⟨.compressed, some (newDims img.width img.height m),
        [⟨(splitext img.path).1 ++ ".jpg", "JPEG",
          (newDims img.width img.height m).1,
          (newDims img.width img.height m).2, some q, true⟩]⟩ := by
  unfold compress_and_resize_image
  rw [hr, hd, hrz, hsv]
  simp [hbig, hnJ, hnP]

/-- Past the skip test, whatever happens later, the size handed to
`img.resize` is the freshly computed pair. -/
lemma transform_resizedTo (img : ImageInput) (m q : Nat)
    (hr : img.readable = true) (hd : img.decodeOk = true)
    (hbig : ¬ (img.width ≤ m ∧ img.height ≤ m)) :
    (compress_and_resize_image img m q).resizedTo =
      some (newDims img.width img.height m) := by
  unfold compress_and_resize_image
  rw [hr, hd]
  simp only [Bool.true_eq_false, if_false, if_neg hbig]
  split
  · rfl
  · split
    · split <;> rfl
    · split
      · split <;> rfl
      · split <;> rfl

/-- Both components of the computed size are at most `max_size` whenever the
skip test failed. -/
lemma newDims_le (w h m : Nat) (hbig : ¬ (w ≤ m ∧ h ≤ m)) :
    (newDims w h m).1 ≤ m ∧ (newDims w h m).2 ≤ m := by
  unfold newDims
  split
  · rename_i hwh
    have hmw : m < w := by omega
    refine ⟨le_refl m, ?_⟩
    calc h * m / w ≤ w * m / w := by
          exact Nat.div_le_div_right (Nat.mul_le_mul_right m (by omega))
      _ = m := Nat.mul_div_cancel_left m (by omega)
  · rename_i hwh
    have hmh : m < h := by omega
    refine ⟨?_, le_refl m⟩
    calc w * m / h ≤ h * m / h := by
          exact Nat.div_le_div_right (Nat.mul_le_mul_right m (by omega))
      _ = m := Nat.mul_div_cancel_left m (by omega)

/-! ### Claim theorems -/

/-- C1: for every readable, decodable image whose larger dimension exceeds
`max_dimension`, the transformer resamples to dimensions in which the larger
of width/height becomes exactly `max_dimension` and the other side becomes
the integer truncation of `other * max_dimension / larger`. -/
theorem c1_aspect_ratio (img : ImageInput) (m q : Nat)
    (hr : img.readable = true) (hd : img.decodeOk = true)
    (hbig : m < img.width ∨ m < img.height) :
    (compress_and_resize_image img m q).resizedTo =
      some (newDims img.width img.height m) ∧
    (if img.height ≤ img.width then
        newDims img.width img.height m = (m, img.height * m / img.width)
      else
        newDims img.width img.height m = (img.width * m / img.height, m)) := by
  have hns : ¬ (img.width ≤ m ∧ img.height ≤ m) := by omega
  refine ⟨transform_resizedTo img m q hr hd hns, ?_⟩
  unfold newDims
  rcases Nat.lt_trichotomy img.height img.width with hlt | heq | hgt
  · rw [if_pos (le_of_lt hlt), if_pos hlt]
  · have hw : 0 < img.width := by omega
    rw [if_pos (le_of_eq heq), if_neg (by omega), heq,
      Nat.mul_div_cancel_left _ hw]
  · rw [if_neg (by omega), if_neg (by omega)]

/-- C1 witness: a 1920x1080 image with `max_dimension = 720` is resampled to
720x405. -/
theorem c1_aspect_ratio_witness :
    ((compress_and_resize_image ⟨"a.jpg", true, true, "JPEG", 1920, 1080, true, true⟩
        720 85).resizedTo = some (newDims 1920 1080 720) ∧
     (if (1080 : Nat) ≤ 1920 then newDims 1920 1080 720 = (720, 1080 * 720 / 1920)
      else newDims 1920 1080 720 = (1920 * 720 / 1080, 720))) ∧
    newDims 1920 1080 720 = (720, 405) :=
  ⟨c1_aspect_ratio ⟨"a.jpg", true, true, "JPEG", 1920, 1080, true, true⟩ 720 85
      rfl rfl (by decide),
   by decide⟩

/-- C2: for every readable, decodable image with both dimensions within the
bound, the transformer returns `skipped`, passes nothing to the resampler and
writes nothing to disk. -/
theorem c2_small_skipped (img : ImageInput) (m q : Nat)
    (hr : img.readable = true) (hd : img.decodeOk = true)
    (hw : img.width ≤ m) (hh : img.height ≤ m) :
    compress_and_resize_image img m q = ⟨.skipped, none, []⟩ :=
  transform_small img m q hr hd hw hh

/-- C2 witness: a 300x200 PNG with `max_dimension = 720` is skipped
untouched. -/
theorem c2_small_skipped_witness :
    compress_and_resize_image ⟨"b.png", true, true, "PNG", 300, 200, true, true⟩
      720 85 = ⟨.skipped, none, []⟩ :=
  c2_small_skipped ⟨"b.png", true, true, "PNG", 300, 200, true, true⟩ 720 85
    rfl rfl (by decide) (by decide)

/-- C7: a square image with both sides above the bound takes the
height-scaling branch (`new_height = max_size`,
`new_width = int(width * max_size / height)`), which resizes it to
`max_size` by `max_size`. -/
theorem c7_square_height_branch (img : ImageInput) (m q : Nat)
    (hr : img.readable = true) (hd : img.decodeOk = true)
    (hsq : img.width = img.height) (hbig : m < img.width) :
    newDims img.width img.height m = (img.width * m / img.height, m) ∧
    img.width * m / img.height = m ∧
    (compress_and_resize_image img m q).resizedTo = some (m, m) := by
  have hh : 0 < img.height := by omega
  have h1 : newDims img.width img.height m = (img.width * m / img.height, m) := by
    unfold newDims
    rw [if_neg (by omega)]
  have h2 : img.width * m / img.height = m := by
    rw [hsq]
    exact Nat.mul_div_cancel_left m hh
  have hns : ¬ (img.width ≤ m ∧ img.height ≤ m) := by omega
  refine ⟨h1, h2, ?_⟩
  rw [transform_resizedTo img m q hr hd hns, h1, h2]

/-- C7 witness: a 1000x1000 PNG with `max_dimension = 500` is resampled to
500x500 through the height branch. -/
theorem c7_square_height_branch_witness :
    newDims 1000 1000 500 = (1000 * 500 / 1000, 500) ∧
    1000 * 500 / 1000 = 500 ∧
    (compress_and_resize_image ⟨"c.png", true, true, "PNG", 1000, 1000, true, true⟩
        500 85).resizedTo = some (500, 500) :=
  c7_square_height_branch ⟨"c.png", true, true, "PNG", 1000, 1000, true, true⟩
    500 85 rfl rfl rfl (by decide)

/-- C8: called on a `root_path` that is not an existing directory, the walker
reports the error and returns at once: no summary is produced, no file is
enumerated or touched. -/
theorem c8_missing_root_no_walk (files : List FileEntry) (m q : Nat) :
    process_directory_recursive false files m q = none := rfl

/-- C9: an image whose native format is neither JPEG-family nor PNG but whose
path already ends in `.jpg` (here a WEBP stored as `photo.jpg`): the fallback
destination `splitext(path)[0] + '.jpg'` equals the original path, so the
transformer overwrites the original file instead of creating a sibling. -/
theorem c9_extension_collision_overwrites :
    (splitext "photo.jpg").1 ++ ".jpg" = "photo.jpg" ∧
    (compress_and_resize_image ⟨"photo.jpg", true, true, "WEBP", 1000, 800, true, true⟩
        500 85).writes = [⟨"photo.jpg", "JPEG", 500, 400, some 85, true⟩] ∧
    afterTransform ⟨"photo.jpg", true, true, "WEBP", 1000, 800, true, true⟩ 500 85 ≠
      ⟨"photo.jpg", true, true, "WEBP", 1000, 800, true, true⟩ := by
  decide

/-- C10: a 2000x1 image with `max_dimension = 720` gives
`int(1 * 720 / 2000) = 0` for the new height, and the transformer passes the
zero straight to the resampler: no guard keeps both computed dimensions at
least 1. -/
theorem c10_zero_dimension_unguarded :
    newDims 2000 1 720 = (720, 0) ∧
    (compress_and_resize_image ⟨"wide.jpg", true, true, "JPEG", 2000, 1, true, true⟩
        720 85).resizedTo = some (720, 0) := by
  decide

/-- C6: the transformer is a total function into the three tags (it never
raises to its caller: every raising library call lands in the `except`
clause); a denied read gives `error`, a failing decode gives `error`, and a
failure of the resample or of the encode on an oversized image gives
`error`. -/
theorem c6_total_three_outcomes (img : ImageInput) (m q : Nat) :
    ((compress_and_resize_image img m q).outcome = .compressed ∨
     (compress_and_resize_image img m q).outcome = .skipped ∨
     (compress_and_resize_image img m q).outcome = .error) ∧
    (img.readable = false → (compress_and_resize_image img m q).outcome = .error) ∧
    (img.readable = true → img.decodeOk = false →
      (compress_and_resize_image img m q).outcome = .error) ∧
    (img.readable = true → img.decodeOk = true →
      ¬ (img.width ≤ m ∧ img.height ≤ m) →
      img.resizeOk = false ∨ img.saveOk = false →
      (compress_and_resize_image img m q).outcome = .error) := by
  refine ⟨?_, ?_, ?_, ?_⟩
  · cases h : (compress_and_resize_image img m q).outcome
    · exact Or.inl rfl
    · exact Or.inr (Or.inl rfl)
    · exact Or.inr (Or.inr rfl)
  · intro h
    rw [transform_unreadable img m q h]
  · intro hr h
    rw [transform_undecodable img m q hr h]
  · intro hr hd hbig hfail
    unfold compress_and_resize_image
    rw [hr, hd]
    simp only [Bool.true_eq_false, if_false, if_neg hbig]
    rcases hfail with hf | hf <;> simp only [hf] <;> (repeat' split) <;> simp_all

/-- Every per-file step of the walker keeps
`total = compressed + skipped + failed`: `total_images` and exactly one of
the other three counters go up together, or nothing changes. -/
lemma processFile_inv (st : WalkState) (f : FileEntry) (m q : Nat)
    (h : st.summary.total =
      st.summary.compressed + st.summary.skipped + st.summary.failed) :
    (processFile st f m q).summary.total =
      (processFile st f m q).summary.compressed +
      (processFile st f m q).summary.skipped +
      (processFile st f m q).summary.failed := by
  unfold processFile
  split
  · split
    · simp only
      omega
    · split <;> simp only <;> omega
  · exact h

/-- Folding the per-file step over any file list preserves the counter
invariant. -/
lemma walkFold_inv (files : List FileEntry) (m q : Nat) :
    ∀ st : WalkState,
      st.summary.total =
        st.summary.compressed + st.summary.skipped + st.summary.failed →
      (files.foldl (fun st f => processFile st f m q) st).summary.total =
        (files.foldl (fun st f => processFile st f m q) st).summary.compressed +
        (files.foldl (fun st f => processFile st f m q) st).summary.skipped +
        (files.foldl (fun st f => processFile st f m q) st).summary.failed := by
  induction files with
  | nil => exact fun st h => h
  | cons f fs ih => exact fun st h => ih _ (processFile_inv st f m q h)

/-- C5: after a walk over any prefix of any mix of files — so at every moment
of the traversal as well as at its end — the counters satisfy
`total = compressed + skipped + failed`. -/
theorem c5_counter_invariant (files : List FileEntry) (n m q : Nat)
    (st : WalkState)
    (h : process_directory_recursive true (List.take n files) m q = some st) :
    st.summary.total =
      st.summary.compressed + st.summary.skipped + st.summary.failed := by
  unfold process_directory_recursive at h
  simp only [if_true, Option.some.injEq] at h
  rw [← h]
  exact walkFold_inv (List.take n files) m q ⟨⟨0, 0, 0, 0⟩, []⟩ rfl

/-- C5 witness: a two-file walk (one small PNG that is skipped, one
unreadable JPEG that fails) ends with counters 2 = 0 + 1 + 1. -/
theorem c5_counter_invariant_witness :
    (⟨⟨2, 0, 1, 1⟩, []⟩ : WalkState).summary.total =
      (⟨⟨2, 0, 1, 1⟩, []⟩ : WalkState).summary.compressed +
      (⟨⟨2, 0, 1, 1⟩, []⟩ : WalkState).summary.skipped +
      (⟨⟨2, 0, 1, 1⟩, []⟩ : WalkState).summary.failed :=
  c5_counter_invariant
    [⟨"a.png", true, ⟨"d/a.png", true, true, "PNG", 100, 100, true, true⟩, false⟩,
     ⟨"b.jpg", true, ⟨"d/b.jpg", false, true, "JPEG", 2000, 100, true, true⟩, false⟩]
    2 720 85 ⟨⟨2, 0, 1, 1⟩, []⟩ (by decide)

/-- The outcome alone of a skip. -/
lemma transform_small_outcome (img : ImageInput) (m q : Nat)
    (hr : img.readable = true) (hd : img.decodeOk = true)
    (hw : img.width ≤ m) (hh : img.height ≤ m) :
    (compress_and_resize_image img m q).outcome = .skipped := by
  rw [transform_small img m q hr hd hw hh]

/-- C3 counterexample: a 1000x1000 BMP at `pic.bmp` with
`max_dimension = 500`.  The first run compresses, but writes only the sibling
`pic.jpg`, leaving `pic.bmp` untouched; the second run on `pic.bmp` therefore
compresses again instead of returning `skipped`. -/
theorem c3_counterexample_bmp_not_skipped :
    (compress_and_resize_image ⟨"pic.bmp", true, true, "BMP", 1000, 1000, true, true⟩
        500 85).outcome = .compressed ∧
    afterTransform ⟨"pic.bmp", true, true, "BMP", 1000, 1000, true, true⟩ 500 85 =
      ⟨"pic.bmp", true, true, "BMP", 1000, 1000, true, true⟩ ∧
    (compress_and_resize_image
        (afterTransform ⟨"pic.bmp", true, true, "BMP", 1000, 1000, true, true⟩ 500 85)
        500 85).outcome ≠ .skipped := by
  decide

/-- C3 as amended: for every readable, decodable image whose native format
saves in place (JPEG, JPG or PNG) and whose resample and encode succeed,
a second run with the same `max_dimension` returns `skipped`, because the
post-resize dimensions no longer exceed the bound; for other native formats
the save goes to a sibling `.jpg` file and the original is processed afresh. -/
theorem c3_idempotent_inplace (img : ImageInput) (m q : Nat)
    (hr : img.readable = true) (hd : img.decodeOk = true)
    (hfmt : img.format = "JPEG" ∨ img.format = "JPG" ∨ img.format = "PNG")
    (hrz : img.resizeOk = true) (hsv : img.saveOk = true) :
    (compress_and_resize_image (afterTransform img m q) m q).outcome = .skipped := by
  by_cases hsmall : img.width ≤ m ∧ img.height ≤ m
  · have h1 := transform_small img m q hr hd hsmall.1 hsmall.2
    have h2 : afterTransform img m q = img := by
      unfold afterTransform
      rw [h1]
      rfl
    rw [h2, h1]
  · have hle := newDims_le img.width img.height m hsmall
    rcases hfmt with hf | hf | hf
    · have h1 := transform_jpeg img m q hr hd hsmall hrz hsv (Or.inl hf)
      have h2 : afterTransform img m q =
          { img with width := (newDims img.width img.height m).1,
                     height := (newDims img.width img.height m).2,
                     format := "JPEG" } := by
        unfold afterTransform
        rw [h1]
        simp [List.find?]
      rw [h2]
      exact transform_small_outcome _ m q hr hd hle.1 hle.2
    · have h1 := transform_jpeg img m q hr hd hsmall hrz hsv (Or.inr hf)
      have h2 : afterTransform img m q =
          { img with width := (newDims img.width img.height m).1,
                     height := (newDims img.width img.height m).2,
                     format := "JPEG" } := by
        unfold afterTransform
        rw [h1]
        simp [List.find?]
      rw [h2]
      exact transform_small_outcome _ m q hr hd hle.1 hle.2
    · have h1 := transform_png img m q hr hd hsmall hrz hsv hf
      have h2 : afterTransform img m q =
          { img with width := (newDims img.width img.height m).1,
                     height := (newDims img.width img.height m).2,
                     format := "PNG" } := by
        unfold afterTransform
        rw [h1]
        simp [List.find?]
      rw [h2]
      exact transform_small_outcome _ m q hr hd hle.1 hle.2

/-- C3 witness: a 1920x1080 JPEG run at `max_dimension = 720` and then run
again is skipped the second time. -/
theorem c3_idempotent_inplace_witness :
    (compress_and_resize_image
        (afterTransform ⟨"a.jpg", true, true, "JPEG", 1920, 1080, true, true⟩ 720 85)
        720 85).outcome = .skipped :=
  c3_idempotent_inplace ⟨"a.jpg", true, true, "JPEG", 1920, 1080, true, true⟩
    720 85 rfl rfl (Or.inl rfl) rfl rfl

/-- C4 counterexample: a WEBP whose path is `pic.jpg` (content/extension
mismatch).  The fallback destination equals the original path, so the save
overwrites the original file: the original bytes are NOT left unmodified. -/
theorem c4_counterexample_mismatched_extension :
    (compress_and_resize_image ⟨"pic.jpg", true, true, "WEBP", 2000, 1000, true, true⟩
        500 85).writes = [⟨"pic.jpg", "JPEG", 500, 250, some 85, true⟩] ∧
    afterTransform ⟨"pic.jpg", true, true, "WEBP", 2000, 1000, true, true⟩ 500 85 ≠
      ⟨"pic.jpg", true, true, "WEBP", 2000, 1000, true, true⟩ := by
  decide

/-- C4 as amended: the re-encode dispatches on the content-inferred format —
JPEG-family in place as JPEG at the given quality, PNG in place as PNG, and
any other format converted to RGB and saved as JPEG to the original path with
its extension replaced by `.jpg`; on that fallback path the original file is
left unmodified PROVIDED the computed `.jpg` path differs from the original
path (it coincides when the original path's extension is already `.jpg`). -/
theorem c4_save_dispatch (img : ImageInput) (m q : Nat)
    (hr : img.readable = true) (hd : img.decodeOk = true)
    (hbig : ¬ (img.width ≤ m ∧ img.height ≤ m))
    (hrz : img.resizeOk = true) (hsv : img.saveOk = true) :
    (img.format = "JPEG" ∨ img.format = "JPG" →
      (compress_and_resize_image img m q).writes =
        [⟨img.path, "JPEG", (newDims img.width img.height m).1,
          (newDims img.width img.height m).2, some q, false⟩]) ∧
    (img.format = "PNG" →
      (compress_and_resize_image img m q).writes =
        [⟨img.path, "PNG", (newDims img.width img.height m).1,
          (newDims img.width img.height m).2, none, false⟩]) ∧
    (img.format ≠ "JPEG" → img.format ≠ "JPG" → img.format ≠ "PNG" →
      (compress_and_resize_image img m q).writes =
        [⟨(splitext img.path).1 ++ ".jpg", "JPEG",
          (newDims img.width img.height m).1,
          (newDims img.width img.height m).2, some q, true⟩] ∧
      ((splitext img.path).1 ++ ".jpg" ≠ img.path →
        afterTransform img m q = img)) := by
  refine ⟨?_, ?_, ?_⟩
  · intro hf
    rw [transform_jpeg img m q hr hd hbig hrz hsv hf]
  · intro hf
    rw [transform_png img m q hr hd hbig hrz hsv hf]
  · intro h1 h2 h3
    have hnJ : ¬ (img.format = "JPEG" ∨ img.format = "JPG") := by
      intro hc
      rcases hc with hc | hc
      · exact h1 hc
      · exact h2 hc
    have hw := transform_other img m q hr hd hbig hrz hsv hnJ h3
    refine ⟨by rw [hw], ?_⟩
    intro hne
    unfold afterTransform
    rw [hw]
    simp [List.find?, hne]

/-- C4 witness: a 1000x1000 BMP at `pic.bmp` with `max_dimension = 500` is
written to the new sibling `pic.jpg` at 500x500 in RGB, and `pic.bmp` itself
is left unmodified. -/
theorem c4_save_dispatch_witness :
    (((⟨"pic.bmp", true, true, "BMP", 1000, 1000, true, true⟩ : ImageInput).format = "JPEG" ∨
      (⟨"pic.bmp", true, true, "BMP", 1000, 1000, true, true⟩ : ImageInput).format = "JPG" →
      (compress_and_resize_image ⟨"pic.bmp", true, true, "BMP", 1000, 1000, true, true⟩
          500 85).writes =
        [⟨"pic.bmp", "JPEG", (newDims 1000 1000 500).1, (newDims 1000 1000 500).2,
          some 85, false⟩]) ∧
    ((⟨"pic.bmp", true, true, "BMP", 1000, 1000, true, true⟩ : ImageInput).format = "PNG" →
      (compress_and_resize_image ⟨"pic.bmp", true, true, "BMP", 1000, 1000, true, true⟩
          500 85).writes =
        [⟨"pic.bmp", "PNG", (newDims 1000 1000 500).1, (newDims 1000 1000 500).2,
          none, false⟩]) ∧
    ((⟨"pic.bmp", true, true, "BMP", 1000, 1000, true, true⟩ : ImageInput).format ≠ "JPEG" →
      (⟨"pic.bmp", true, true, "BMP", 1000, 1000, true, true⟩ : ImageInput).format ≠ "JPG" →
      (⟨"pic.bmp", true, true, "BMP", 1000, 1000, true, true⟩ : ImageInput).format ≠ "PNG" →
      (compress_and_resize_image ⟨"pic.bmp", true, true, "BMP", 1000, 1000, true, true⟩
          500 85).writes =
        [⟨(splitext "pic.bmp").1 ++ ".jpg", "JPEG", (newDims 1000 1000 500).1,
          (newDims 1000 1000 500).2, some 85, true⟩] ∧
      ((splitext "pic.bmp").1 ++ ".jpg" ≠ "pic.bmp" →
        afterTransform ⟨"pic.bmp", true, true, "BMP", 1000, 1000, true, true⟩ 500 85 =
          ⟨"pic.bmp", true, true, "BMP", 1000, 1000, true, true⟩))) :=
  c4_save_dispatch ⟨"pic.bmp", true, true, "BMP", 1000, 1000, true, true⟩ 500 85
    rfl rfl (by decide) rfl rfl
